import Mathlib

/-!
Shallow embedding of the VLESS/WebSocket tunneling client in `src/vpn.py`
(class `V2RayClient`), together with theorems settling the frozen claims
about its specification.

Bytes are modelled as `Nat` (each entry of a byte list is a value `< 256`
where it comes from real byte strings; the codec functions never depend on
that bound except where noted).  Python `int.to_bytes(k, "big")` /
`int.from_bytes(_, "big")` are modelled by `toBytesBE` / `fromBytesBE`;
Python raises `OverflowError` when the value does not fit in `k` bytes, so
theorems about the 8-byte tier carry the corresponding `< 256^k` bound.
-/

namespace Vpn

/-- Model of Python `v.to_bytes(k, "big")`: big-endian byte list of length
`k`.  (Python raises `OverflowError` when `256^k ≤ v`; theorems using the
encoding carry that bound as a hypothesis.) -/
def toBytesBE : Nat → Nat → List Nat
  | 0, _ => []
  | k + 1, v => toBytesBE k (v / 256) ++ [v % 256]

/-- Model of Python `int.from_bytes(l, "big")`. -/
def fromBytesBE (l : List Nat) : Nat :=
  l.foldl (fun acc b => acc * 256 + b) 0

/-- Embedding of `V2RayClient._create_websocket_frame` (src/vpn.py lines
175-190): appends `0x02 ||| 0x80 = 0x82`, then the length field chosen by
the payload-size tier (`≤ 125` inline; `≤ 65535` marker 126 + 2-byte
big-endian; else marker 127 + 8-byte big-endian), then the payload bytes
unchanged.  The source sets no mask bit and performs no masking. -/
def createWebsocketFrame (data : List Nat) : List Nat :=
  let payloadLen := data.length
  let lenField : List Nat :=
    if payloadLen ≤ 125 then [payloadLen]
    else if payloadLen ≤ 65535 then 126 :: toBytesBE 2 payloadLen
    else 127 :: toBytesBE 8 payloadLen
  130 :: (lenField ++ data)

/-- Tail of `V2RayClient._parse_websocket_frame` (src/vpn.py lines
240-255), from the point where `payload_len` (`pl`), `data_start` (`ds`)
and the mask bit (`masked = frame[1] & 0x80`) are known: read and apply
the 4-byte masking key when the mask bit is set, slice out the payload,
and return `None` whenever the buffer is shorter than the bytes those
fields require. -/
def finishParse (frame : List Nat) (pl ds masked : Nat) :
    Option (List Nat) :=
  if masked ≠ 0 then
    if frame.length < ds + 4 then none
    else
      let key := (frame.drop ds).take 4
      if frame.length < (ds + 4) + pl then none
      else
        let mp := (frame.drop (ds + 4)).take pl
        some ((List.range pl).map
          (fun i => (mp.getD i 0) ^^^ (key.getD (i % 4) 0)))
  else
    if frame.length < ds + pl then none
    else some ((frame.drop ds).take pl)

/-- Embedding of `V2RayClient._parse_websocket_frame` (src/vpn.py lines
215-255).  Python slices `frame[a:b]` are modelled by `(drop a).take (b-a)`
(both clamp at the end of the buffer); the guarded index accesses
`frame[0]`, `frame[1]` are modelled by `getD` (the `len < 2` guard makes
them in-bounds; see `parseWebsocketFrameChecked` for the instrumented
version).  `none` models the `return None` paths (short buffer, non-binary
opcode, truncated extended length / key / payload); the tail of the source
function, after `payload_len`/`data_start` are determined, is split into
`finishParse`. -/
def parseWebsocketFrame (frame : List Nat) : Option (List Nat) :=
  if frame.length < 2 then none
  else
    let b0 := frame.getD 0 0
    let b1 := frame.getD 1 0
    let opcode := b0 &&& 0x0F
    let masked := b1 &&& 0x80
    let pl7 := b1 &&& 0x7F
    if opcode ≠ 2 then none
    else if pl7 = 126 then
      if frame.length < 4 then none
      else finishParse frame (fromBytesBE ((frame.drop 2).take 2)) 4 masked
    else if pl7 = 127 then
      if frame.length < 10 then none
      else finishParse frame (fromBytesBE ((frame.drop 2).take 8)) 10 masked
    else finishParse frame pl7 2 masked

/-- Total byte length that the header fields of a frame buffer declare:
header (2 or 4 or 10 bytes, by the 7-bit length field), plus 4 masking-key
bytes when the mask bit is set, plus the declared payload length.  Reads of
missing extended-length bytes clamp to the available buffer (which only
lowers the declared total). -/
def declaredLen (frame : List Nat) : Nat :=
  let b1 := frame.getD 1 0
  let masked := b1 &&& 0x80
  let pl7 := b1 &&& 0x7F
  if pl7 = 126 then
    4 + (if masked ≠ 0 then 4 else 0) + fromBytesBE ((frame.drop 2).take 2)
  else if pl7 = 127 then
    10 + (if masked ≠ 0 then 4 else 0) + fromBytesBE ((frame.drop 2).take 8)
  else 2 + (if masked ≠ 0 then 4 else 0) + pl7

/-- Checked list indexing: model of Python `l[i]`, which raises
`IndexError` when `i` is out of range. -/
def idxE (l : List Nat) (i : Nat) : Except String Nat :=
  if i < l.length then .ok (l.getD i 0) else .error "IndexError"

/-- Checked unmasking loop: model of
`[masked_payload[i] ^ masking_key[i % 4] for i in range(payload_len)]`
with every index access instrumented. -/
def unmaskChecked (mp key : List Nat) : List Nat → Except String (List Nat)
  | [] => .ok []
  | i :: rest =>
    match idxE mp i, idxE key (i % 4) with
    | .ok a, .ok b =>
      match unmaskChecked mp key rest with
      | .ok tail => .ok ((a ^^^ b) :: tail)
      | .error e => .error e
    | .error e, _ => .error e
    | _, .error e => .error e

/-- Instrumented version of `finishParse`, with the index accesses of the
unmasking loop bounds-checked. -/
def finishParseChecked (frame : List Nat) (pl ds masked : Nat) :
    Except String (Option (List Nat)) :=
  if masked ≠ 0 then
    if frame.length < ds + 4 then .ok none
    else
      let key := (frame.drop ds).take 4
      if frame.length < (ds + 4) + pl then .ok none
      else
        let mp := (frame.drop (ds + 4)).take pl
        match unmaskChecked mp key (List.range pl) with
        | .ok l => .ok (some l)
        | .error e => .error e
  else
    if frame.length < ds + pl then .ok none
    else .ok (some ((frame.drop ds).take pl))

/-- Instrumented embedding of `V2RayClient._parse_websocket_frame`: same
control flow as `parseWebsocketFrame`, but every Python index access
(`frame[0]`, `frame[1]`, `masked_payload[i]`, `masking_key[i % 4]`) goes
through a bounds check that surfaces `IndexError` instead of reading a
default.  Used to state that the decoder never indexes past the buffer. -/
def parseWebsocketFrameChecked (frame : List Nat) :
    Except String (Option (List Nat)) :=
  if frame.length < 2 then .ok none
  else
    match idxE frame 0, idxE frame 1 with
    | .error e, _ => .error e
    | _, .error e => .error e
    | .ok b0, .ok b1 =>
      let opcode := b0 &&& 0x0F
      let masked := b1 &&& 0x80
      let pl7 := b1 &&& 0x7F
      if opcode ≠ 2 then .ok none
      else if pl7 = 126 then
        if frame.length < 4 then .ok none
        else finishParseChecked frame (fromBytesBE ((frame.drop 2).take 2)) 4 masked
      else if pl7 = 127 then
        if frame.length < 10 then .ok none
        else finishParseChecked frame (fromBytesBE ((frame.drop 2).take 8)) 10 masked
      else finishParseChecked frame pl7 2 masked

/-- Embedding of `V2RayClient._generate_vless_header` (src/vpn.py lines
149-155): `b"\x01\x00" + b"\x01" + inet_aton(server_address) +
port.to_bytes(2, "big") + payload`.  `addrBytes` stands for the 4-byte
result of `socket.inet_aton` on a valid dotted-quad address (theorems carry
`addrBytes.length = 4`); `inet_aton` raises on non-IPv4 strings and
`to_bytes` raises for ports outside `[0, 65535]`, so those bounds appear as
hypotheses. -/
def generateVlessHeader (addrBytes : List Nat) (port : Nat)
    (payload : List Nat) : List Nat :=
  [0x01, 0x00] ++ [0x01] ++ addrBytes ++ toBytesBE 2 port ++ payload

/-- Substring test: model of Python `needle in hay` on strings. -/
def containsSub (hay needle : List Char) : Bool :=
  match hay with
  | [] => needle.isEmpty
  | _ :: t => needle.isPrefixOf hay || containsSub t needle

/-- Status line of an HTTP response: the characters before the first CR
(used only to state the claim about the WebSocket handshake check). -/
def statusLine (response : List Char) : List Char :=
  response.takeWhile (fun c => c ≠ '\r')

/-- Mutable state of a `V2RayClient` instance, restricted to the fields the
modelled operations read or write: `connected`, `socket`, the
(non-reentrant) `threading.Lock`, `network`, and the TCP-address data used
by `_generate_vless_header` (`serverAddrBytes` stands for
`inet_aton(server_address)`, assumed a valid dotted quad).  The remaining
configuration fields (`uuid_str`, `path`, `security`, `sni`, `host`,
`ws_header`) never influence `connect`/`send`/`receive`/`close` after the
handshake bytes are fixed, and are modelled separately by `VConfig`. -/
structure ClientState where
  connected : Bool
  socket : Option Unit
  lock : Bool
  network : String
  serverAddrBytes : List Nat
  serverPort : Nat
  deriving DecidableEq, Repr

/-- Outcome of the underlying `socket.sendall` call: success, or an
exception raised by the transport. -/
inductive WriteOutcome where
  | ok
  | err
  deriving DecidableEq, Repr

/-- Result of running `send`: a returned boolean together with the bytes
actually written to the transport and the post-state, or a deadlock
(`with self.lock:` re-entered while the same thread already holds the
non-reentrant `threading.Lock`, which blocks forever). -/
inductive OpResult where
  | ret (b : Bool) (written : List Nat) (st : ClientState)
  | deadlock
  deriving DecidableEq, Repr

/-- Outcome of the underlying `socket.recv` call: an exception, or the
returned byte string (empty meaning peer EOF). -/
inductive RecvArg where
  | err
  | data (bytes : List Nat)
  deriving DecidableEq, Repr

/-- Result of running `receive`: returned value plus post-state, or a
deadlock on the re-entered lock. -/
inductive RecvResult where
  | ret (r : Option (List Nat)) (st : ClientState)
  | deadlock
  deriving DecidableEq, Repr

/-- Environment of one `connect()` call: whether socket creation /
TCP+TLS connect succeeded, and (for WebSocket mode) the HTTP response text
returned by the first `recv` after the Upgrade request. -/
structure ConnEnv where
  sockOk : Bool
  response : List Char
  deriving DecidableEq, Repr

/-- Embedding of `V2RayClient.close` (src/vpn.py lines 141-147): acquire
the lock (`none` models the deadlock when the lock is already held by the
caller's own thread), then close and clear the socket and clear
`connected` when a socket is present. -/
def closeModel (st : ClientState) : Option ClientState :=
  if st.lock then none
  else
    let st1 := { st with lock := true }
    let st2 :=
      if st1.socket.isSome then
        { st1 with socket := none, connected := false }
      else st1
    some { st2 with lock := false }

/-- Embedding of `V2RayClient.send` (src/vpn.py lines 157-173).  Under the
lock: fail fast with `False` unless `connected` and a socket is present;
in TCP mode write `_generate_vless_header(data)` (the full header plus the
payload) and in WS mode write `_create_websocket_frame(data)`; on a write
exception run `self.close()` — which re-acquires the already-held
non-reentrant lock (modelled by `closeModel` returning `none` →
`deadlock`).  A network string other than `"tcp"`/`"ws"` falls through to
`return True` without writing anything, as in the source. -/
def sendModel (st : ClientState) (data : List Nat) (w : WriteOutcome) :
    OpResult :=
  if st.lock then .deadlock
  else
    let st1 := { st with lock := true }
    if st1.connected = false ∨ st1.socket = none then
      .ret false [] { st1 with lock := false }
    else if st1.network = "tcp" then
      match w with
      | .ok =>
        .ret true (generateVlessHeader st1.serverAddrBytes st1.serverPort data)
          { st1 with lock := false }
      | .err =>
        match closeModel st1 with
        | none => .deadlock
        | some st2 => .ret false [] { st2 with lock := false }
    else if st1.network = "ws" then
      match w with
      | .ok => .ret true (createWebsocketFrame data) { st1 with lock := false }
      | .err =>
        match closeModel st1 with
        | none => .deadlock
        | some st2 => .ret false [] { st2 with lock := false }
    else .ret true [] { st1 with lock := false }

/-- Embedding of `V2RayClient.receive` (src/vpn.py lines 192-213).  Under
the lock: fail fast with `None` unless connected with a socket; an empty
`recv` (peer EOF) or a `recv` exception runs `self.close()` under the
already-held lock (deadlock); otherwise TCP mode returns the raw bytes and
WS mode returns `_parse_websocket_frame(bytes)`.  A network string other
than `"tcp"`/`"ws"` falls off the end of the `try` and returns `None`. -/
def receiveModel (st : ClientState) (r : RecvArg) : RecvResult :=
  if st.lock then .deadlock
  else
    let st1 := { st with lock := true }
    if st1.connected = false ∨ st1.socket = none then
      .ret none { st1 with lock := false }
    else if st1.network = "tcp" then
      match r with
      | .err =>
        match closeModel st1 with
        | none => .deadlock
        | some st2 => .ret none { st2 with lock := false }
      | .data bs =>
        if bs.isEmpty then
          match closeModel st1 with
          | none => .deadlock
          | some st2 => .ret none { st2 with lock := false }
        else .ret (some bs) { st1 with lock := false }
    else if st1.network = "ws" then
      match r with
      | .err =>
        match closeModel st1 with
        | none => .deadlock
        | some st2 => .ret none { st2 with lock := false }
      | .data bs =>
        if bs.isEmpty then
          match closeModel st1 with
          | none => .deadlock
          | some st2 => .ret none { st2 with lock := false }
        else .ret (parseWebsocketFrame bs) { st1 with lock := false }
    else .ret none { st1 with lock := false }

/-- Embedding of `V2RayClient.connect` together with `_connect_tcp`
(src/vpn.py lines 70-89) and `_connect_ws` (lines 91-127).  Under the
lock: warn and return if already connected; otherwise in TCP mode a
successful socket connect yields `connected = True` with a live socket and
any exception yields `connected = False, socket = None`; in WS mode the
handshake additionally requires the substring `"101 Switching Protocols"`
in the decoded response (the source's `in` test over the whole first
`recv(1024)`), failing into the same exception path otherwise.  An invalid
network string only logs. -/
def connectModel (st : ClientState) (env : ConnEnv) : Option ClientState :=
  if st.lock then none
  else
    let st1 := { st with lock := true }
    if st1.connected then some { st1 with lock := false }
    else if st1.network = "tcp" then
      let st2 :=
        if env.sockOk then { st1 with socket := some (), connected := true }
        else { st1 with socket := none, connected := false }
      some { st2 with lock := false }
    else if st1.network = "ws" then
      let st2 :=
        if env.sockOk &&
            containsSub env.response ("101 Switching Protocols".toList) then
          { st1 with socket := some (), connected := true }
        else { st1 with socket := none, connected := false }
      some { st2 with lock := false }
    else some { st1 with lock := false }

/-- Embedding of `V2RayClient.__init__` (src/vpn.py lines 14-29), state
fields only: `socket = None`, `connected = False`, fresh (unheld) lock. -/
def initState (network : String) (addrBytes : List Nat) (port : Nat) :
    ClientState :=
  { connected := false, socket := none, lock := false, network := network
    serverAddrBytes := addrBytes, serverPort := port }

instance {e a : Type} [DecidableEq e] [DecidableEq a] :
    DecidableEq (Except e a) := fun x y =>
  match x, y with
  | .ok v, .ok w =>
    if h : v = w then isTrue (by rw [h])
    else isFalse (fun he => h (Except.ok.inj he))
  | .error v, .error w =>
    if h : v = w then isTrue (by rw [h])
    else isFalse (fun he => h (Except.error.inj he))
  | .ok _, .error _ => isFalse (fun he => Except.noConfusion he)
  | .error _, .ok _ => isFalse (fun he => Except.noConfusion he)

/-- Model of Python `str.split(sep)` for a one-character separator: always
returns at least one piece, with no separator character inside pieces. -/
def splitOnChar (c : Char) : List Char → List (List Char)
  | [] => [[]]
  | x :: xs =>
    let r := splitOnChar c xs
    if x = c then [] :: r
    else
      match r with
      | h :: t => (x :: h) :: t
      | [] => [[x]]

/-- Splits a character list at the first occurrence of `c` (the parts
before and after it), or `none` when `c` does not occur. -/
def splitAtFirst (c : Char) : List Char → Option (List Char × List Char)
  | [] => none
  | x :: xs =>
    if x = c then some ([], xs)
    else
      match splitAtFirst c xs with
      | some (a, b) => some (x :: a, b)
      | none => none

/-- Characters allowed in a URL scheme by `urllib.parse`. -/
def isSchemeChar (c : Char) : Bool :=
  c.isAlphanum || c == '+' || c == '-' || c == '.'

/-- Scheme extraction of `urllib.parse.urlsplit`: the text before the
first `:` is the scheme when it starts with a letter and consists of
scheme characters (lowercased); otherwise the scheme is empty and the URL
is left whole. -/
def extractScheme (l : List Char) : List Char × List Char :=
  match splitAtFirst ':' l with
  | some (before, after) =>
    (match before with
     | [] => ([], l)
     | c0 :: _ =>
       if c0.isAlpha && before.all isSchemeChar then
         (before.map Char.toLower, after)
       else ([], l))
  | none => ([], l)

/-- Errors raised out of `V2RayClient._parse_config`, named after the
spec's taxonomy: `invalidScheme` is the explicit
`ValueError("Invalid scheme...")`; `malformedUri` is the `IndexError` from
`split("@")[1]` / `split(":")[1]`; `invalidPort` is the `ValueError` from
`int(...)` on a non-integer port segment; `invalidIPv6Url` is the
`ValueError("Invalid IPv6 URL")` `urlparse` itself raises on a netloc with
a mismatched bracket. -/
inductive PyErr where
  | invalidScheme
  | malformedUri
  | invalidPort
  | invalidIPv6Url
  deriving DecidableEq, Repr

/-- Model of the part of `urllib.parse.urlparse` that `_parse_config`
uses: returns `(scheme, netloc, query)`.  The netloc is present only after
`"//"` and runs to the first `/`, `?` or `#`; a netloc containing `[`
without `]` (or conversely) raises; the fragment (after the first `#` of
the remainder) is cut before the query (after the first `?`) is taken. -/
def urlparseModel (l : List Char) :
    Except PyErr (List Char × List Char × List Char) :=
  let sr := extractScheme l
  let netRest : List Char × List Char :=
    match sr.2 with
    | '/' :: '/' :: r =>
      (r.takeWhile (fun c => !(c == '/' || c == '?' || c == '#')),
       r.dropWhile (fun c => !(c == '/' || c == '?' || c == '#')))
    | other => ([], other)
  if (netRest.1.contains '[' ≠ netRest.1.contains ']') then
    .error .invalidIPv6Url
  else
    let beforeFrag := netRest.2.takeWhile (fun c => c ≠ '#')
    let query :=
      match splitAtFirst '?' beforeFrag with
      | some (_, q) => q
      | none => []
    .ok (sr.1, netRest.1, query)

/-- Value of a hexadecimal digit character, or `none`. -/
def hexDigitVal (c : Char) : Option Nat :=
  if c.isDigit then some (c.toNat - 48)
  else if 'a' ≤ c && c ≤ 'f' then some (c.toNat - 97 + 10)
  else if 'A' ≤ c && c ≤ 'F' then some (c.toNat - 65 + 10)
  else none

/-- Model of `urllib.parse.unquote_plus` restricted to single-byte escape
sequences: `+` becomes a space and `%XX` with two hex digits becomes the
character with that code; invalid escapes pass through unchanged.
(Multi-byte UTF-8 escapes are out of scope of every claim.) -/
def unquotePlusAux : Nat → List Char → List Char
  | 0, l => l
  | _, [] => []
  | fuel + 1, c :: rest =>
    if c = '+' then ' ' :: unquotePlusAux fuel rest
    else if c = '%' then
      match rest with
      | a :: b :: rest2 =>
        (match hexDigitVal a, hexDigitVal b with
         | some x, some y => Char.ofNat (16 * x + y) :: unquotePlusAux fuel rest2
         | _, _ => '%' :: unquotePlusAux fuel rest)
      | _ => '%' :: unquotePlusAux fuel rest
    else c :: unquotePlusAux fuel rest

/-- Entry point of the unquoting loop: every step consumes at least one
character, so `l.length` steps always suffice (the fuel argument only
bounds the recursion and never runs out). -/
def unquotePlus (l : List Char) : List Char := unquotePlusAux l.length l

/-- Model of `urllib.parse.parse_qs` with default options: split the query
on `&`, keep only pairs that contain `=` with a nonempty value, and
unquote both sides.  Order of first occurrence is preserved. -/
def qsPairs (query : List Char) : List (List Char × List Char) :=
  (splitOnChar '&' query).filterMap fun pair =>
    match splitAtFirst '=' pair with
    | none => none
    | some (k, v) =>
      if v.isEmpty then none else some (unquotePlus k, unquotePlus v)

/-- Model of `query_params.get(key, [default])[0]`: the first value bound
to `key` in the parsed query, or the default. -/
def parseQsGet (query keyName default : List Char) : List Char :=
  match (qsPairs query).find? (fun p => p.1 == keyName) with
  | some p => p.2
  | none => default

/-- ASCII whitespace stripped by Python `int(str)`. -/
def isPySpace (c : Char) : Bool :=
  c == ' ' || c == '\t' || c == '\n' || c == '\r' || c == '\x0B' || c == '\x0C'

/-- Tail of a Python integer literal after its first digit: digits with
single underscores allowed only between digits. -/
def digitsRestOk : List Char → Bool
  | [] => true
  | '_' :: [] => false
  | '_' :: d :: rest => d.isDigit && digitsRestOk rest
  | c :: rest => c.isDigit && digitsRestOk rest

/-- Model of Python `int(s)` in base 10: strip ASCII whitespace, accept an
optional sign and a nonempty digit string with single underscores between
digits; `none` models the `ValueError`.  (Non-ASCII digit and space
characters accepted by CPython are out of scope of every claim.) -/
def pyIntParse (l : List Char) : Option Int :=
  let t := ((l.dropWhile isPySpace).reverse.dropWhile isPySpace).reverse
  let sd : Bool × List Char :=
    match t with
    | '-' :: rest => (true, rest)
    | '+' :: rest => (false, rest)
    | _ => (false, t)
  match sd.2 with
  | [] => none
  | c :: rest =>
    if c.isDigit && digitsRestOk rest then
      let v : Nat :=
        ((c :: rest).filter (fun x => x ≠ '_')).foldl
          (fun a x => 10 * a + (x.toNat - 48)) 0
      some (if sd.1 then -(v : Int) else (v : Int))
    else none

/-- Parsed connection configuration: the fields `_parse_config`
(src/vpn.py lines 31-59) assigns.  `serverPort` is an `Int` because the
source stores the raw result of `int(...)` with no range check. -/
structure VConfig where
  uuidStr : List Char
  serverAddress : List Char
  serverPort : Int
  path : List Char
  security : List Char
  network : List Char
  sni : List Char
  host : List Char
  wsHeader : Option (List (List Char × List Char))
  deriving DecidableEq, Repr

/-- Embedding of `V2RayClient._parse_config` (src/vpn.py lines 31-59).
Control flow follows the source: scheme check first; then
`netloc.split("@")[0]` / `[1]` (a missing `@` raises `IndexError`, mapped
to `malformedUri`); then `host_port.split(":")[0]` / `[1]` (same); then
`int(port_segment)` (`ValueError`, mapped to `invalidPort`) — with no
range check on the resulting integer; then the query parameters with their
defaults, and `ws_header` exactly when the network type is `"ws"`. -/
def parseConfig (url : List Char) : Except PyErr VConfig :=
  match urlparseModel url with
  | .error e => .error e
  | .ok (scheme, netloc, query) =>
    if scheme ≠ "vless".toList then .error .invalidScheme
    else
      let segs := splitOnChar '@' netloc
      let uuidStr := segs.getD 0 []
      match segs[1]? with
      | none => .error .malformedUri
      | some hostPort =>
        let hps := splitOnChar ':' hostPort
        let serverAddress := hps.getD 0 []
        match hps[1]? with
        | none => .error .malformedUri
        | some portSeg =>
          match pyIntParse portSeg with
          | none => .error .invalidPort
          | some port =>
            let path := parseQsGet query ("path".toList) ("/".toList)
            let security := parseQsGet query ("security".toList) ("none".toList)
            let network := parseQsGet query ("type".toList) ("tcp".toList)
            let sni := parseQsGet query ("sni".toList) serverAddress
            let host := parseQsGet query ("host".toList) serverAddress
            .ok { uuidStr := uuidStr, serverAddress := serverAddress
                  serverPort := port, path := path, security := security
                  network := network, sni := sni, host := host
                  wsHeader :=
                    if network = "ws".toList then
                      some [("User-Agent".toList, "Mozilla/5.0".toList),
                            ("Origin".toList, "https://".toList ++ host)]
                    else none }

/-- Invariant of claim C10: whenever `connected` is true the transport
socket handle is non-null. -/
def connImpliesSocket (st : ClientState) : Prop :=
  st.connected = true → st.socket.isSome

instance (st : ClientState) : Decidable (connImpliesSocket st) := by
  unfold connImpliesSocket; infer_instance

/-- Example state: a connected TCP-mode client with a quiescent lock. -/
def exStTcp : ClientState :=
  { connected := true, socket := some (), lock := false, network := "tcp"
    serverAddrBytes := [127, 0, 0, 1], serverPort := 443 }

/-- Example state: a disconnected WebSocket-mode client. -/
def exStWs : ClientState :=
  { connected := false, socket := none, lock := false, network := "ws"
    serverAddrBytes := [127, 0, 0, 1], serverPort := 443 }

/-! ### Helper lemmas -/

theorem length_toBytesBE (k v : Nat) : (toBytesBE k v).length = k := by
  induction k generalizing v with
  | zero => rfl
  | succ n ih => simp [toBytesBE, ih]

theorem fromBytesBE_append_one (xs : List Nat) (b : Nat) :
    fromBytesBE (xs ++ [b]) = 256 * fromBytesBE xs + b := by
  simp [fromBytesBE, List.foldl_append]
  ring

theorem fromBytesBE_toBytesBE (k v : Nat) (h : v < 256 ^ k) :
    fromBytesBE (toBytesBE k v) = v := by
  induction k generalizing v with
  | zero =>
    simp [pow_zero] at h
    simp [toBytesBE, fromBytesBE, h]
  | succ n ih =>
    have hd : v / 256 < 256 ^ n := by
      rw [Nat.div_lt_iff_lt_mul (by norm_num)]
      calc v < 256 ^ (n + 1) := h
        _ = 256 ^ n * 256 := by ring
    rw [toBytesBE, fromBytesBE_append_one, ih _ hd]
    omega

theorem toBytesBE_two (v : Nat) :
    toBytesBE 2 v = [v / 256 % 256, v % 256] := rfl

theorem toBytesBE_eight (v : Nat) :
    toBytesBE 8 v =
      [v / 256 ^ 7 % 256, v / 256 ^ 6 % 256, v / 256 ^ 5 % 256,
       v / 256 ^ 4 % 256, v / 256 ^ 3 % 256, v / 256 ^ 2 % 256,
       v / 256 % 256, v % 256] := by
  simp only [toBytesBE, Nat.div_div_eq_div_mul, List.nil_append,
    List.cons_append, List.append_assoc]
  norm_num

theorem land127_of_lt {n : Nat} (h : n < 128) : n &&& 127 = n := by
  have h7 := Nat.and_pow_two_sub_one_eq_mod n 7
  simp only [show (2 : Nat) ^ 7 - 1 = 127 from rfl,
    show (2 : Nat) ^ 7 = 128 from rfl] at h7
  rw [h7, Nat.mod_eq_of_lt h]

theorem land128_of_lt {n : Nat} (h : n < 128) : n &&& 128 = 0 := by
  have hb : n.testBit 7 = false :=
    Nat.testBit_eq_false_of_lt (by simpa using h)
  have h7 := Nat.and_two_pow n 7
  rw [hb] at h7
  simpa using h7

theorem idxE_ok_of_lt {l : List Nat} {i : Nat} (h : i < l.length) :
    idxE l i = .ok (l.getD i 0) := by
  simp [idxE, h]

theorem unmaskChecked_ok (mp key : List Nat) (idxs : List Nat)
    (h : ∀ i ∈ idxs, i < mp.length ∧ i % 4 < key.length) :
    unmaskChecked mp key idxs =
      .ok (idxs.map (fun i => (mp.getD i 0) ^^^ (key.getD (i % 4) 0))) := by
  induction idxs with
  | nil => rfl
  | cons i rest ih =>
    have hi := h i (List.mem_cons_self i rest)
    have hrest : ∀ j ∈ rest, j < mp.length ∧ j % 4 < key.length :=
      fun j hj => h j (List.mem_cons_of_mem i hj)
    rw [unmaskChecked, idxE_ok_of_lt hi.1, idxE_ok_of_lt hi.2, ih hrest]
    simp

theorem finishParse_none_of_short (frame : List Nat) (pl ds masked : Nat)
    (h : frame.length < ds + (if masked ≠ 0 then 4 else 0) + pl) :
    finishParse frame pl ds masked = none := by
  unfold finishParse
  split_ifs at h ⊢ <;> first | rfl | omega

theorem finishParseChecked_eq (frame : List Nat) (pl ds masked : Nat) :
    finishParseChecked frame pl ds masked =
      .ok (finishParse frame pl ds masked) := by
  unfold finishParse finishParseChecked
  split_ifs with h1 h2 h3 <;> try rfl
  dsimp only []
  rw [unmaskChecked_ok]
  intro i hi
  rw [List.mem_range] at hi
  constructor
  · rw [List.length_take, List.length_drop]
    omega
  · rw [List.length_take, List.length_drop]
    have : i % 4 < 4 := Nat.mod_lt i (by norm_num)
    omega

theorem splitOnChar_of_not_mem {c : Char} {l : List Char} (h : c ∉ l) :
    splitOnChar c l = [l] := by
  induction l with
  | nil => rfl
  | cons x xs ih =>
    have hx : x ≠ c := fun he => h (he ▸ List.mem_cons_self x xs)
    have hxs : c ∉ xs := fun hm => h (List.mem_cons_of_mem x hm)
    rw [splitOnChar]
    simp [hx, ih hxs]

theorem clearLock_eq (st : ClientState) (h : st.lock = false) :
    { st with lock := false } = st := by
  cases st
  simp_all

theorem take_append_eq (l1 l2 : List Nat) (n : Nat) (h : l1.length = n) :
    (l1 ++ l2).take n = l1 := by
  subst h
  exact List.take_left l1 l2

theorem drop_append_eq (l1 l2 : List Nat) (n : Nat) (h : l1.length = n) :
    (l1 ++ l2).drop n = l2 := by
  subst h
  exact List.drop_left l1 l2

/-! ### Claim theorems -/

/-- Claim C5, counterexample: the VLESS header builder prepends 9 bytes
(2 command + 1 address type + 4 address + 2 port), so on the empty payload
its output has length 9, not `8 + len(payload) = 8` as the claim states. -/
theorem c5_counterexample :
    (generateVlessHeader [127, 0, 0, 1] 443 []).length = 9 ∧
    (generateVlessHeader [127, 0, 0, 1] 443 []).length ≠
      8 + ([] : List Nat).length := by
  decide

/-- Claim C5 as amended: for every payload (with a 4-byte address and an
in-range port, the contracts of `inet_aton` and `to_bytes`), the VLESS
header builder's output has length exactly `9 + len(payload)` and its
first two bytes equal the fixed command constant `b"\x01\x00"`. -/
theorem c5_amended_header_length (addrBytes : List Nat) (port : Nat)
    (payload : List Nat) (ha : addrBytes.length = 4) (_hp : port < 65536) :
    (generateVlessHeader addrBytes port payload).length = 9 + payload.length ∧
    (generateVlessHeader addrBytes port payload).take 2 = [1, 0] := by
  constructor
  · simp [generateVlessHeader, ha, length_toBytesBE]
    omega
  · rfl

/-- Witness for C5 at a concrete input. -/
theorem c5_amended_header_length_witness :
    ([127, 0, 0, 1] : List Nat).length = 4 ∧ (443 : Nat) < 65536 ∧
    ((generateVlessHeader [127, 0, 0, 1] 443 [9]).length = 9 + [9].length ∧
      (generateVlessHeader [127, 0, 0, 1] 443 [9]).take 2 = [1, 0]) :=
  ⟨rfl, by decide, c5_amended_header_length [127, 0, 0, 1] 443 [9] rfl (by decide)⟩

/-- Claim C9: whenever the connection is not in the Connected state (and
the lock is quiescent), `send` returns `False` writing nothing and
`receive` returns `None`, each leaving the state exactly unchanged. -/
theorem c9_fail_fast (st : ClientState) (data : List Nat) (w : WriteOutcome)
    (r : RecvArg) (hl : st.lock = false) (hc : st.connected = false) :
    sendModel st data w = .ret false [] st ∧
    receiveModel st r = .ret none st := by
  cases st with
  | mk c s l n a p =>
    simp only at hl hc
    subst hl
    subst hc
    constructor
    · simp [sendModel]
    · simp [receiveModel]

/-- Witness for C9 at a concrete disconnected state. -/
theorem c9_fail_fast_witness :
    exStWs.lock = false ∧ exStWs.connected = false ∧
    (sendModel exStWs [1] .ok = .ret false [] exStWs ∧
      receiveModel exStWs (.data [1]) = .ret none exStWs) :=
  ⟨rfl, rfl, c9_fail_fast exStWs [1] .ok (.data [1]) rfl rfl⟩

/-- Claim C2, counterexample: the source tracks no first-send flag, so a
second `send` on the same (unchanged) connected TCP state again writes the
VLESS header in front of the payload — the bytes written are not the
caller's payload alone. -/
theorem c2_counterexample :
    sendModel exStTcp [1] .ok =
      .ret true [1, 0, 1, 127, 0, 0, 1, 1, 187, 1] exStTcp ∧
    sendModel exStTcp [2] .ok =
      .ret true [1, 0, 1, 127, 0, 0, 1, 1, 187, 2] exStTcp ∧
    [1, 0, 1, 127, 0, 0, 1, 1, 187, 2] ≠ ([2] : List Nat) := by
  decide

/-- Claim C2 as amended: on a TCP-network connection, EVERY successful
send writes the VLESS request header followed by the caller's payload, and
leaves the state unchanged — so subsequent sends prepend the header
again. -/
theorem c2_amended_header_every_send (st : ClientState) (data : List Nat)
    (hl : st.lock = false) (hc : st.connected = true)
    (hs : st.socket = some ()) (hn : st.network = "tcp") :
    sendModel st data .ok =
      .ret true (generateVlessHeader st.serverAddrBytes st.serverPort data)
        st := by
  cases st with
  | mk c s l n a p =>
    simp only at hl hc hs hn
    subst hl
    subst hc
    subst hs
    subst hn
    simp [sendModel]

/-- Witness for C2 (amended) at a concrete connected TCP state. -/
theorem c2_amended_header_every_send_witness :
    exStTcp.lock = false ∧ exStTcp.connected = true ∧
    exStTcp.socket = some () ∧ exStTcp.network = "tcp" ∧
    sendModel exStTcp [5] .ok =
      .ret true
        (generateVlessHeader exStTcp.serverAddrBytes exStTcp.serverPort [5])
        exStTcp :=
  ⟨rfl, rfl, rfl, rfl, c2_amended_header_every_send exStTcp [5] rfl rfl rfl rfl⟩

/-- Claim C8 (code bug): on a transport-level write failure during `send`
on a connected client, the source calls `self.close()` while the calling
thread already holds the non-reentrant `threading.Lock`, so the client
deadlocks instead of transitioning to Disconnected and returning
`False`. -/
theorem c8_send_failure_deadlock (st : ClientState) (data : List Nat)
    (hl : st.lock = false) (hc : st.connected = true)
    (hs : st.socket = some ())
    (hn : st.network = "tcp" ∨ st.network = "ws") :
    sendModel st data .err = .deadlock := by
  cases st with
  | mk c s l n a p =>
    simp only at hl hc hs hn
    subst hl
    subst hc
    subst hs
    rcases hn with h | h <;> subst h <;> simp [sendModel, closeModel]

/-- Witness for C8 at a concrete connected TCP state. -/
theorem c8_send_failure_deadlock_witness :
    exStTcp.lock = false ∧ exStTcp.connected = true ∧
    exStTcp.socket = some () ∧
    (exStTcp.network = "tcp" ∨ exStTcp.network = "ws") ∧
    sendModel exStTcp [1] .err = .deadlock :=
  ⟨rfl, rfl, rfl, Or.inl rfl,
    c8_send_failure_deadlock exStTcp [1] rfl rfl rfl (Or.inl rfl)⟩

/-- Claim C4: for every input buffer shorter than the total its own header
fields declare (header + extended length + masking key + payload), the
WebSocket frame decoder returns `None`, and the decoder never performs an
out-of-range index access on any input (its instrumented version never
raises `IndexError`). -/
theorem c4_truncation_safe (frame : List Nat) :
    (frame.length < declaredLen frame → parseWebsocketFrame frame = none) ∧
    parseWebsocketFrameChecked frame = .ok (parseWebsocketFrame frame) := by
  constructor
  · intro h
    unfold declaredLen at h
    unfold parseWebsocketFrame
    dsimp only [] at h ⊢
    by_cases h2 : frame.length < 2
    · simp [h2]
    · rw [if_neg h2]
      split_ifs at h ⊢ <;>
        first
          | rfl
          | omega
          | (apply finishParse_none_of_short
             split_ifs
             all_goals omega)
  · unfold parseWebsocketFrame parseWebsocketFrameChecked
    by_cases h2 : frame.length < 2
    · simp [h2]
    · rw [if_neg h2, if_neg h2,
        idxE_ok_of_lt (show 0 < frame.length by omega),
        idxE_ok_of_lt (show 1 < frame.length by omega)]
      dsimp only []
      split_ifs <;> first | rfl | apply finishParseChecked_eq

/-- Witness for C4 at a concrete truncated frame (the buffer `[130, 5]`
declares a 5-byte payload but contains none of it). -/
theorem c4_truncation_safe_witness :
    ([130, 5] : List Nat).length < declaredLen [130, 5] ∧
    parseWebsocketFrame [130, 5] = none ∧
    parseWebsocketFrameChecked [130, 5] = .ok (parseWebsocketFrame [130, 5]) :=
  ⟨by decide, (c4_truncation_safe [130, 5]).1 (by decide),
    (c4_truncation_safe [130, 5]).2⟩

/-- Claim C1, counterexample: the frame encoder does NOT set the mask bit
of the second byte (for payload `[0]` the emitted frame is `82 01 00` —
first byte `0x82`, second byte `0x01` with bit `0x80` clear, payload
appended raw with no 4-byte masking key). -/
theorem c1_counterexample :
    createWebsocketFrame [0] = [130, 1, 0] ∧
    ¬((createWebsocketFrame [0]).getD 1 0 &&& 0x80 = 0x80) ∧
    (createWebsocketFrame [0]).length = 3 := by
  decide

/-- Claim C1 as amended: for every payload (below the 2^64 `to_bytes`
bound), the frame encoder produces `0x82` (FIN + binary opcode) followed
by the tier-appropriate length field (≤125 inline; ≤65535 marker 126 plus
2-byte big-endian length; else marker 127 plus 8-byte big-endian length)
followed directly by the UNMASKED payload: the mask bit of the second byte
is clear and no masking key is present. -/
theorem c1_amended_frame_layout (data : List Nat) (h : data.length < 2 ^ 64) :
    createWebsocketFrame data =
      130 ::
        ((if data.length ≤ 125 then [data.length]
          else if data.length ≤ 65535 then
            [126, data.length / 256, data.length % 256]
          else
            [127, data.length / 256 ^ 7 % 256, data.length / 256 ^ 6 % 256,
             data.length / 256 ^ 5 % 256, data.length / 256 ^ 4 % 256,
             data.length / 256 ^ 3 % 256, data.length / 256 ^ 2 % 256,
             data.length / 256 % 256, data.length % 256]) ++ data) ∧
    (createWebsocketFrame data).getD 1 0 &&& 0x80 = 0 ∧
    (createWebsocketFrame data).length =
      (if data.length ≤ 125 then 2
       else if data.length ≤ 65535 then 4 else 10) + data.length := by
  by_cases h1 : data.length ≤ 125
  · have hfr : createWebsocketFrame data = 130 :: data.length :: data := by
      simp [createWebsocketFrame, h1]
    refine ⟨?_, ?_, ?_⟩
    · rw [hfr, if_pos h1]
      rfl
    · rw [hfr]
      simpa using land128_of_lt (show data.length < 128 by omega)
    · rw [hfr, if_pos h1]
      simp
      omega
  · by_cases h2 : data.length ≤ 65535
    · have hfr : createWebsocketFrame data =
          130 :: 126 :: (toBytesBE 2 data.length ++ data) := by
        simp [createWebsocketFrame, h1, h2]
      refine ⟨?_, ?_, ?_⟩
      · rw [hfr, if_neg h1, if_pos h2, toBytesBE_two,
          Nat.mod_eq_of_lt (show data.length / 256 < 256 by omega)]
        rfl
      · rw [hfr]
        simp only [List.getD_cons_zero, List.getD_cons_succ]
        decide
      · rw [hfr, if_neg h1, if_pos h2]
        simp [length_toBytesBE]
        omega
    · have hfr : createWebsocketFrame data =
          130 :: 127 :: (toBytesBE 8 data.length ++ data) := by
        simp [createWebsocketFrame, h1, h2]
      refine ⟨?_, ?_, ?_⟩
      · rw [hfr, if_neg h1, if_neg h2, toBytesBE_eight]
        rfl
      · rw [hfr]
        simp only [List.getD_cons_zero, List.getD_cons_succ]
        decide
      · rw [hfr, if_neg h1, if_neg h2]
        simp [length_toBytesBE]
        omega

/-- Witness for C1 (amended) at a concrete payload. -/
theorem c1_amended_frame_layout_witness :
    ([3, 4] : List Nat).length < 2 ^ 64 ∧
    createWebsocketFrame [3, 4] =
      130 ::
        ((if ([3, 4] : List Nat).length ≤ 125 then [([3, 4] : List Nat).length]
          else if ([3, 4] : List Nat).length ≤ 65535 then
            [126, ([3, 4] : List Nat).length / 256,
             ([3, 4] : List Nat).length % 256]
          else
            [127, ([3, 4] : List Nat).length / 256 ^ 7 % 256,
             ([3, 4] : List Nat).length / 256 ^ 6 % 256,
             ([3, 4] : List Nat).length / 256 ^ 5 % 256,
             ([3, 4] : List Nat).length / 256 ^ 4 % 256,
             ([3, 4] : List Nat).length / 256 ^ 3 % 256,
             ([3, 4] : List Nat).length / 256 ^ 2 % 256,
             ([3, 4] : List Nat).length / 256 % 256,
             ([3, 4] : List Nat).length % 256]) ++ [3, 4]) ∧
    (createWebsocketFrame [3, 4]).getD 1 0 &&& 0x80 = 0 ∧
    (createWebsocketFrame [3, 4]).length =
      (if ([3, 4] : List Nat).length ≤ 125 then 2
       else if ([3, 4] : List Nat).length ≤ 65535 then 4 else 10) +
        ([3, 4] : List Nat).length :=
  ⟨by decide, c1_amended_frame_layout [3, 4] (by decide)⟩

/-- Claim C3: for every payload (below the 2^64 `to_bytes` bound, so in
particular at the boundary sizes 125, 126, 65535 and 65536 covering all
three length tiers), the encoder emits an unmasked frame (so a server that
unmasks only masked frames leaves it unchanged) and decoding the encoder's
output returns exactly the payload. -/
theorem c3_roundtrip (data : List Nat) (h : data.length < 2 ^ 64) :
    (createWebsocketFrame data).getD 1 0 &&& 0x80 = 0 ∧
    parseWebsocketFrame (createWebsocketFrame data) = some data := by
  by_cases h1 : data.length ≤ 125
  · have hfr : createWebsocketFrame data = 130 :: data.length :: data := by
      simp [createWebsocketFrame, h1]
    have e2 : data.length &&& 127 = data.length :=
      land127_of_lt (by omega)
    have e3 : data.length &&& 128 = 0 := land128_of_lt (by omega)
    rw [hfr]
    constructor
    · simpa using e3
    · unfold parseWebsocketFrame
      simp only [List.getD_cons_zero, List.getD_cons_succ, List.length_cons]
      rw [if_neg (by omega), if_neg (by decide), e2, e3,
        if_neg (by omega), if_neg (by omega)]
      unfold finishParse
      rw [if_neg (by simp)]
      simp [List.take_length]
      omega
  · by_cases h2 : data.length ≤ 65535
    · have hfr : createWebsocketFrame data =
          130 :: 126 :: (toBytesBE 2 data.length ++ data) := by
        simp [createWebsocketFrame, h1, h2]
      have hlen : (130 :: 126 :: (toBytesBE 2 data.length ++ data)).length =
          4 + data.length := by
        simp [length_toBytesBE]
        omega
      have htake : ((toBytesBE 2 data.length ++ data).take 2) =
          toBytesBE 2 data.length :=
        take_append_eq _ _ _ (length_toBytesBE 2 _)
      have hdrop : ((toBytesBE 2 data.length ++ data).drop 2) = data :=
        drop_append_eq _ _ _ (length_toBytesBE 2 _)
      have hfb : fromBytesBE (toBytesBE 2 data.length) = data.length :=
        fromBytesBE_toBytesBE 2 _ (by norm_num; omega)
      rw [hfr]
      constructor
      · simp only [List.getD_cons_zero, List.getD_cons_succ]
        decide
      · unfold parseWebsocketFrame
        simp only [List.getD_cons_zero, List.getD_cons_succ, hlen]
        rw [if_neg (by omega), if_neg (by decide), if_pos (by decide),
          if_neg (by omega)]
        simp only [List.drop_succ_cons, List.drop_zero, htake, hfb]
        unfold finishParse
        rw [if_neg (by decide), if_neg (by omega)]
        simp only [List.drop_succ_cons, List.drop_zero, hdrop]
        simp [List.take_length]
    · have hfr : createWebsocketFrame data =
          130 :: 127 :: (toBytesBE 8 data.length ++ data) := by
        simp [createWebsocketFrame, h1, h2]
      have hlen : (130 :: 127 :: (toBytesBE 8 data.length ++ data)).length =
          10 + data.length := by
        simp [length_toBytesBE]
        omega
      have htake : ((toBytesBE 8 data.length ++ data).take 8) =
          toBytesBE 8 data.length :=
        take_append_eq _ _ _ (length_toBytesBE 8 _)
      have hdrop : ((toBytesBE 8 data.length ++ data).drop 8) = data :=
        drop_append_eq _ _ _ (length_toBytesBE 8 _)
      have hfb : fromBytesBE (toBytesBE 8 data.length) = data.length :=
        fromBytesBE_toBytesBE 8 _ (by norm_num; omega)
      rw [hfr]
      constructor
      · simp only [List.getD_cons_zero, List.getD_cons_succ]
        decide
      · unfold parseWebsocketFrame
        simp only [List.getD_cons_zero, List.getD_cons_succ, hlen]
        rw [if_neg (by omega), if_neg (by decide), if_neg (by decide),
          if_pos (by decide), if_neg (by omega)]
        simp only [List.drop_succ_cons, List.drop_zero, htake, hfb]
        unfold finishParse
        rw [if_neg (by decide), if_neg (by omega)]
        simp only [List.drop_succ_cons, List.drop_zero, hdrop]
        simp [List.take_length]

/-- Witness for C3 at a concrete payload spanning the second length tier. -/
theorem c3_roundtrip_witness :
    (List.replicate 126 9).length < 2 ^ 64 ∧
    ((createWebsocketFrame (List.replicate 126 9)).getD 1 0 &&& 0x80 = 0 ∧
      parseWebsocketFrame (createWebsocketFrame (List.replicate 126 9)) =
        some (List.replicate 126 9)) :=
  ⟨by simp, c3_roundtrip (List.replicate 126 9) (by simp)⟩

/-- Claim C6, counterexample: the parser performs no range check on the
port: for `vless://u@h:70000` the port segment is a base-10 integer
outside `[0, 65535]`, yet parsing succeeds with `serverPort = 70000`
instead of failing with a port error. -/
theorem c6_counterexample :
    (parseConfig ("vless://u@h:70000".toList)).map VConfig.serverPort =
      .ok 70000 ∧
    ¬((70000 : Int) ≤ 65535) := by
  decide

/-- Claim C6 as amended: parsing fails with the scheme error when the
scheme is not exactly `vless`; with the malformed-URI error (the
`IndexError` of the source) when the `@` separator is absent from the
netloc or the `:` separator is absent from its host-port part; and with
the port error when the port segment is not a base-10 integer at all —
but integer ports outside `[0, 65535]` are accepted unchecked (see the
counterexample). -/
theorem c6_amended_parse_errors :
    (∀ url s n q, urlparseModel url = .ok (s, n, q) →
      s ≠ "vless".toList → parseConfig url = .error .invalidScheme) ∧
    (∀ url s n q, urlparseModel url = .ok (s, n, q) →
      s = "vless".toList → '@' ∉ n →
      parseConfig url = .error .malformedUri) ∧
    (∀ url s n q hp, urlparseModel url = .ok (s, n, q) →
      s = "vless".toList → (splitOnChar '@' n)[1]? = some hp →
      ':' ∉ hp → parseConfig url = .error .malformedUri) ∧
    (∀ url s n q hp ps, urlparseModel url = .ok (s, n, q) →
      s = "vless".toList → (splitOnChar '@' n)[1]? = some hp →
      (splitOnChar ':' hp)[1]? = some ps → pyIntParse ps = none →
      parseConfig url = .error .invalidPort) := by
  refine ⟨?_, ?_, ?_, ?_⟩
  · intro url s n q hu hs
    unfold parseConfig
    simp only [hu]
    rw [if_pos hs]
  · intro url s n q hu hs hat
    unfold parseConfig
    simp only [hu]
    rw [if_neg (by simp [hs])]
    rw [splitOnChar_of_not_mem hat]
    rfl
  · intro url s n q hp hu hs hseg hcol
    unfold parseConfig
    simp only [hu]
    rw [if_neg (by simp [hs])]
    simp only [hseg, splitOnChar_of_not_mem hcol]
    rfl
  · intro url s n q hp ps hu hs hseg hps hint
    unfold parseConfig
    simp only [hu]
    rw [if_neg (by simp [hs])]
    simp only [hseg, hps, hint]

/-- Witness for C6 (amended) at four concrete descriptor strings. -/
theorem c6_amended_parse_errors_witness :
    parseConfig ("http://u@h:1".toList) = .error .invalidScheme ∧
    parseConfig ("vless://h:1".toList) = .error .malformedUri ∧
    parseConfig ("vless://u@h".toList) = .error .malformedUri ∧
    parseConfig ("vless://u@h:8o80".toList) = .error .invalidPort :=
  ⟨c6_amended_parse_errors.1 _ ("http".toList) ("u@h:1".toList) [] rfl
      (by decide),
   c6_amended_parse_errors.2.1 _ ("vless".toList) ("h:1".toList) [] rfl rfl
      (by decide),
   c6_amended_parse_errors.2.2.1 _ ("vless".toList) ("u@h".toList) []
      ("h".toList) rfl rfl (by decide) (by decide),
   c6_amended_parse_errors.2.2.2 _ ("vless".toList) ("u@h:8o80".toList) []
      ("h:8o80".toList) ("8o80".toList) rfl rfl (by decide) (by decide)
      (by decide)⟩

/-- Concrete WebSocket handshake response whose status line contains
`101` but which does not contain `101 Switching Protocols`. -/
def exResp101 : List Char := "HTTP/1.1 101 OK\r\n\r\n".toList

/-- Concrete WebSocket handshake response containing the full
`101 Switching Protocols` phrase. -/
def exRespOk : List Char := "HTTP/1.1 101 Switching Protocols\r\n\r\n".toList

/-- Claim C7, counterexample: after the Upgrade request, the source tests
the substring `"101 Switching Protocols"` against the whole response, not
`"101"` against the status line — for the response
`HTTP/1.1 101 OK` the status line contains `101`, yet the handshake is
treated as failed and the connection stays Disconnected. -/
theorem c7_counterexample :
    containsSub (statusLine exResp101) ("101".toList) = true ∧
    (connectModel exStWs { sockOk := true, response := exResp101 }).map
      ClientState.connected = some false := by
  decide

/-- Claim C7 as amended: in WebSocket mode, after sending the Upgrade
request, connect() reads one response and transitions to Connected if and
only if the whole response contains the substring
`"101 Switching Protocols"`; otherwise the handshake fails and the
connection remains Disconnected with the socket cleared. -/
theorem c7_amended_handshake (st : ClientState) (env : ConnEnv)
    (hl : st.lock = false) (hc : st.connected = false)
    (hn : st.network = "ws") (hk : env.sockOk = true) :
    connectModel st env =
      some
        (if containsSub env.response ("101 Switching Protocols".toList) then
          { st with connected := true, socket := some () }
        else { st with connected := false, socket := none }) := by
  cases st with
  | mk c s l n a p =>
    simp only at hl hc hn
    subst hl
    subst hc
    subst hn
    cases env with
    | mk so resp =>
      simp only at hk
      subst hk
      simp only [connectModel, Bool.true_and]
      cases hco : containsSub resp ("101 Switching Protocols".toList) <;>
        simp [hco]

/-- Witness for C7 (amended) at a concrete accepted response. -/
theorem c7_amended_handshake_witness :
    exStWs.lock = false ∧ exStWs.connected = false ∧
    exStWs.network = "ws" ∧
    connectModel exStWs { sockOk := true, response := exRespOk } =
      some
        (if containsSub exRespOk ("101 Switching Protocols".toList) then
          { exStWs with connected := true, socket := some () }
        else { exStWs with connected := false, socket := none }) :=
  ⟨rfl, rfl, rfl,
    c7_amended_handshake exStWs { sockOk := true, response := exRespOk }
      rfl rfl rfl rfl⟩

theorem connect_preserves (st : ClientState) (env : ConnEnv)
    (st2 : ClientState) (h : connImpliesSocket st)
    (heq : connectModel st env = some st2) : connImpliesSocket st2 := by
  cases st with
  | mk c s l n a p =>
    cases l
    · unfold connectModel at heq
      dsimp only [] at heq
      split_ifs at heq <;>
        (rw [Option.some_inj] at heq
         subst heq
         intro hc2
         first
           | exact h hc2
           | simp_all [connImpliesSocket])
    · simp [connectModel] at heq

theorem close_preserves (st : ClientState) (st2 : ClientState)
    (h : connImpliesSocket st) (heq : closeModel st = some st2) :
    connImpliesSocket st2 := by
  cases st with
  | mk c s l n a p =>
    cases l
    · unfold closeModel at heq
      dsimp only [] at heq
      split_ifs at heq <;>
        (rw [Option.some_inj] at heq
         subst heq
         intro hc2
         first
           | exact h hc2
           | simp_all [connImpliesSocket])
    · simp [closeModel] at heq

theorem send_preserves (st : ClientState) (data : List Nat)
    (w : WriteOutcome) (b : Bool) (bs : List Nat) (st2 : ClientState)
    (h : connImpliesSocket st) (heq : sendModel st data w = .ret b bs st2) :
    connImpliesSocket st2 := by
  cases st with
  | mk c s l n a p =>
    cases l
    · unfold sendModel at heq
      dsimp only [] at heq
      cases w <;>
        split_ifs at heq <;>
        first
          | (simp only [OpResult.ret.injEq] at heq
             obtain ⟨-, -, h2⟩ := heq
             subst h2
             intro hc2
             exact h hc2)
          | simp [closeModel] at heq
    · simp [sendModel] at heq

theorem receive_preserves (st : ClientState) (r : RecvArg)
    (o : Option (List Nat)) (st2 : ClientState) (h : connImpliesSocket st)
    (heq : receiveModel st r = .ret o st2) : connImpliesSocket st2 := by
  cases st with
  | mk c s l n a p =>
    cases l
    · unfold receiveModel at heq
      dsimp only [] at heq
      rcases r with - | bs <;>
        dsimp only [] at heq <;>
        split_ifs at heq <;>
        first
          | (simp only [RecvResult.ret.injEq] at heq
             obtain ⟨-, h2⟩ := heq
             subst h2
             intro hc2
             exact h hc2)
          | simp [closeModel] at heq
    · simp [receiveModel] at heq

/-- Claim C10: construction establishes, and connect/send/receive/close
each preserve, the invariant that whenever the `connected` flag is true
the transport socket handle is non-null (deadlocked executions yield no
post-state and preserve it vacuously). -/
theorem c10_invariant_preserved (st : ClientState)
    (h : connImpliesSocket st) :
    (∀ net ab p, connImpliesSocket (initState net ab p)) ∧
    (∀ env st2, connectModel st env = some st2 → connImpliesSocket st2) ∧
    (∀ st2, closeModel st = some st2 → connImpliesSocket st2) ∧
    (∀ data w b bs st2, sendModel st data w = .ret b bs st2 →
      connImpliesSocket st2) ∧
    (∀ r o st2, receiveModel st r = .ret o st2 → connImpliesSocket st2) :=
  ⟨fun net ab p => by simp [initState, connImpliesSocket],
   fun env st2 heq => connect_preserves st env st2 h heq,
   fun st2 heq => close_preserves st st2 h heq,
   fun data w b bs st2 heq => send_preserves st data w b bs st2 h heq,
   fun r o st2 heq => receive_preserves st r o st2 h heq⟩

/-- Witness for C10 at a concrete connected state. -/
theorem c10_invariant_preserved_witness :
    connImpliesSocket exStTcp ∧
    ((∀ net ab p, connImpliesSocket (initState net ab p)) ∧
      (∀ env st2, connectModel exStTcp env = some st2 →
        connImpliesSocket st2) ∧
      (∀ st2, closeModel exStTcp = some st2 → connImpliesSocket st2) ∧
      (∀ data w b bs st2, sendModel exStTcp data w = .ret b bs st2 →
        connImpliesSocket st2) ∧
      (∀ r o st2, receiveModel exStTcp r = .ret o st2 →
        connImpliesSocket st2)) :=
  ⟨by decide, c10_invariant_preserved exStTcp (by decide)⟩

end Vpn
